import Mathlib

/-!
Verification of the ABDM hospital-node frontend and its linking protocol
specification. Definitions are shallow embeddings of the JavaScript sources
(patients page, visits page, health-records page, abdm-status page, the `api`
helper object) plus, where the backend component is described only by the
specification, models marked `Modelled from the spec:`.
-/

namespace ABDM

/-! ## Data model -/

/-- A visit row as the frontend consumes it (camelCase API shape). -/
structure Visit where
  visitId : String
  patientId : String
  visitType : String
  department : String
  status : String
deriving DecidableEq, Repr

/-- A webhook queue entry as rendered by the abdm-status page. -/
structure WebhookEvent where
  id : String
  type : String
  event : String
  receivedAt : String
  processed : Bool
  payload : String
deriving DecidableEq, Repr

/-! ## Visits: terminal statuses (health-records.js `loadActiveVisits`,
visits.js `viewVisit`) -/

/-- From `loadActiveVisits` (health-records.js): the record-creation visit
picker is populated from
`visits.filter(v => v.status === "Scheduled" || v.status === "In Progress")`. -/
def loadActiveVisitsFilter (visits : List Visit) : List Visit :=
  visits.filter (fun v => v.status == "Scheduled" || v.status == "In Progress")

/-- From `viewVisit` (visits.js):
`visit.status === "Completed" || visit.status === "Cancelled"`. -/
def isCompletedOrCancelled (v : Visit) : Bool :=
  v.status == "Completed" || v.status == "Cancelled"

/-- From `viewVisit` (visits.js): `addHealthRecordBtn.disabled = true` exactly
when the visit is completed or cancelled. -/
def addHealthRecordBtnDisabled (v : Visit) : Bool :=
  isCompletedOrCancelled v

/-! ## Aadhaar masking (patients page `loadPatients` and `viewPatient`) -/

/-- JS `String.prototype.slice(start, stop)` with nonnegative bounds, as used
in `aadhaar.slice(0, 4)`. -/
def jsSlice (s : List Char) (start stop : Nat) : List Char :=
  (s.take stop).drop start

/-- JS `String.prototype.slice(-n)`: the start index clamps to
`max (length - n) 0`, which Nat subtraction gives directly. -/
def jsSliceNeg (s : List Char) (n : Nat) : List Char :=
  s.drop (s.length - n)

/-- The literal `"****"` between the two slices. -/
def maskStars : List Char := ['*', '*', '*', '*']

/-- The masking expression
`patient.aadhaar.slice(0, 4) + "****" + patient.aadhaar.slice(-4)` shared by
both render sites. -/
def maskAadhaar (s : List Char) : List Char :=
  jsSlice s 0 4 ++ maskStars ++ jsSliceNeg s 4

/-- Aadhaar cell of the patient list table (`loadPatients`):
`aadhaar ? masked : "-" placeholder`. JS truthiness of a string is
non-emptiness. -/
def patientListAadhaarCell (aadhaar : List Char) : List Char :=
  if aadhaar.isEmpty then "<span class=\"text-muted\">-</span>".toList
  else maskAadhaar aadhaar

/-- Aadhaar cell of the patient-details modal (`viewPatient`):
`aadhaar ? masked : "Not provided" placeholder`. -/
def patientDetailsAadhaarCell (aadhaar : List Char) : List Char :=
  if aadhaar.isEmpty then "<span class=\"text-muted\">Not provided</span>".toList
  else maskAadhaar aadhaar

/-! ## Webhook queue clearing (abdm-status.js `clearWebhookQueue`,
api.js `api.webhooks.clearQueue`) -/

/-- Modelled from the spec: the backend handler of `DELETE /webhook/queue` is
not under src/ (only its caller is); §4.2 says clear queue "discards all
entries unconditionally". -/
def clearQueueServer (_q : List WebhookEvent) : List WebhookEvent := []

/-- From `clearWebhookQueue` (abdm-status.js): `if (!confirm(...)) return;`
and only then `api.webhooks.clearQueue()`, which issues
`DELETE /webhook/queue` (api.js). Returns the HTTP requests issued and the
resulting queue. -/
def clearWebhookQueue (confirmed : Bool) (queue : List WebhookEvent) :
    List String × List WebhookEvent :=
  if !confirmed then ([], queue)
  else (["DELETE /webhook/queue"], clearQueueServer queue)

/-! ## Correlation ID generator (api.js `utils.generateUUID`) -/

/-- Lowercase hexadecimal digit, JS `v.toString(16)` for `v` in `0..15`. -/
def hexDigit (n : Nat) : Char :=
  if n < 10 then Char.ofNat (48 + n) else Char.ofNat (87 + n)

/-- The template string of `utils.generateUUID`. -/
def uuidTemplate : List Char := "xxxxxxxx-xxxx-4xxx-yxxx-xxxxxxxxxxxx".toList

/-- The `replace(/[xy]/g, ...)` callback of `utils.generateUUID`:
`const r = Math.random() * 16 | 0; const v = c == "x" ? r : (r & 0x3) | 0x8`.
`Math.random` is modelled as a stream `rand` of draws; the `* 16 | 0`
truncation makes the k-th draw contribute `rand k % 16`. Returns the produced
characters and the index of the next unconsumed draw. -/
def replaceUUIDChars (rand : Nat → Nat) : List Char → Nat → List Char × Nat
  | [], k => ([], k)
  | c :: cs, k =>
    if c = 'x' then
      let rest := replaceUUIDChars rand cs (k + 1)
      (hexDigit (rand k % 16) :: rest.1, rest.2)
    else if c = 'y' then
      let rest := replaceUUIDChars rand cs (k + 1)
      (hexDigit (((rand k % 16) &&& 3) ||| 8) :: rest.1, rest.2)
    else
      let rest := replaceUUIDChars rand cs k
      (c :: rest.1, rest.2)

/-- One `utils.generateUUID` call, consuming draws of `rand` starting at
index `k`. -/
def generateUUID (rand : Nat → Nat) (k : Nat) : List Char :=
  (replaceUUIDChars rand uuidTemplate k).1

/-- Two successive `utils.generateUUID` calls drawing from one random
stream. -/
def generateUUIDTwice (rand : Nat → Nat) : List Char × List Char :=
  let first := replaceUUIDChars rand uuidTemplate 0
  (first.1, (replaceUUIDChars rand uuidTemplate first.2).1)

/-- A lowercase hexadecimal character. -/
def isHexChar (c : Char) : Bool :=
  "0123456789abcdef".toList.contains c

/-- The 8-4-4-4-12 version-4 UUID surface format the claim describes. -/
def isUUIDv4Format (u : List Char) : Prop :=
  u.length = 36
  ∧ u.get? 8 = some '-' ∧ u.get? 13 = some '-'
  ∧ u.get? 18 = some '-' ∧ u.get? 23 = some '-'
  ∧ u.get? 14 = some '4'
  ∧ (∃ c, u.get? 19 = some c ∧ c ∈ (['8', '9', 'a', 'b'] : List Char))
  ∧ u.all (fun c => c == '-' || isHexChar c) = true

/-! ## Gateway notification step of health-record creation
(health-records.js `handleCreateHealthRecord`, api.js `api.healthRecords`) -/

/-- The member names defined on the `api.healthRecords` object in api.js. -/
def apiHealthRecordsMethods : List String := ["create", "getByPatient", "list"]

/-- A health record row persisted by `api.healthRecords.create`. -/
structure HealthRecordRow where
  recordId : String
  patientId : String
  recordType : String
  title : String
deriving DecidableEq, Repr

/-- Observable outcome of a run of `handleCreateHealthRecord`. -/
structure CreateRecordOutcome where
  records : List HealthRecordRow
  gatewayNotifications : List String
  message : String
  reportedSuccess : Bool
deriving Repr

/-- JS member access plus call `api.healthRecords.<name>(...)`: calling a
member that is not defined on the object throws a TypeError, modelled as
`Except.error`. -/
def callHealthRecordsMethod (name : String) (recordId : String) :
    Except String String :=
  if apiHealthRecordsMethods.contains name then Except.ok recordId
  else Except.error (name ++ " is not a function")

/-- From `handleCreateHealthRecord` (health-records.js): Step 1 persists the
record via `api.healthRecords.create`; Step 3 tries
`api.healthRecords.notifyGateway(patientId, createResponse.id)` inside
try/catch — on `notifyError` the catch branch still reports success with the
"(gateway notification pending)" message. (Step 2, the conditional
care-context retry, touches neither the record list nor the notification.) -/
def handleCreateHealthRecordFlow (existing : List HealthRecordRow)
    (r : HealthRecordRow) : CreateRecordOutcome :=
  let created := existing ++ [r]
  match callHealthRecordsMethod "notifyGateway" r.recordId with
  | Except.ok rid =>
      { records := created, gatewayNotifications := [rid],
        message := "✅ Health record created, linked to care context, and registered with ABDM Gateway!",
        reportedSuccess := true }
  | Except.error _ =>
      { records := created, gatewayNotifications := [],
        message := "✅ Health record created and linked to care context (gateway notification pending)",
        reportedSuccess := true }

/-! ## Care-Context Linking Engine (spec §4.1). The backend engine behind
`POST /api/care-context/create-and-link` is code of this repository that is
not under src/ (only its frontend callers are), so it is modelled from the
specification. -/

/-- Status `linkingStatus` of a CareContext (spec §3). -/
inductive LinkStatus
  | pending
  | linked
  | failed
deriving DecidableEq, Repr

/-- A CareContext row (spec §3): `visitId` is optional, `linkingError` is set
only when failed. -/
structure CareContext where
  contextId : Nat
  patientId : String
  visitId : Option String
  contextName : String
  linkingStatus : LinkStatus
  linkingError : Option String
deriving DecidableEq, Repr

/-- Outcome of the broker bind-context call: success, or any network /
broker-side failure with its human-readable message (spec §4.1 treats both
failure kinds through the same state transition). -/
inductive BrokerResult
  | success
  | failure (message : String)
deriving DecidableEq, Repr

/-- Local persistent state of the linking engine. -/
structure EngineState where
  contexts : List CareContext
  nextId : Nat
deriving DecidableEq, Repr

/-- The §4.1 lookup key: (patientId, visitId). -/
def keyMatches (pid : String) (vid : Option String) (c : CareContext) : Bool :=
  c.patientId == pid && c.visitId == vid

/-- Modelled from the spec: §4.1 steps 3–4 — a pending context becomes linked
on broker success, or failed with `linkingError` recorded on failure; a
non-pending context is not changed by a bind result alone. -/
def applyBindResult (c : CareContext) (b : BrokerResult) : CareContext :=
  if c.linkingStatus = LinkStatus.pending then
    match b with
    | BrokerResult.success =>
        { c with linkingStatus := LinkStatus.linked, linkingError := none }
    | BrokerResult.failure msg =>
        { c with linkingStatus := LinkStatus.failed, linkingError := some msg }
  else c

/-- Modelled from the spec: §4.1 create-and-link — it first performs a lookup
by (patientId, visitId); an existing non-failed context is reused as is; an
existing failed context is re-bound in place (an explicit retry) rather than
duplicated; otherwise a fresh pending row is created and the broker bind
applied to it. The local row is never rolled back on failure. -/
def createAndLink (s : EngineState) (pid : String) (vid : Option String)
    (nm : String) (broker : BrokerResult) : EngineState × CareContext :=
  match s.contexts.find? (keyMatches pid vid) with
  | some c =>
      if c.linkingStatus ≠ LinkStatus.failed then (s, c)
      else
        let retried :=
          applyBindResult { c with linkingStatus := LinkStatus.pending } broker
        ({ s with
            contexts := s.contexts.map (fun d => if d = c then retried else d) },
          retried)
  | none =>
      let fresh : CareContext :=
        { contextId := s.nextId, patientId := pid, visitId := vid,
          contextName := nm, linkingStatus := LinkStatus.pending,
          linkingError := none }
      let bound := applyBindResult fresh broker
      ({ contexts := s.contexts ++ [bound], nextId := s.nextId + 1 }, bound)

/-- The CareContext rows stored for one (patientId, visitId) key. -/
def contextsForKey (s : EngineState) (pid : String) (vid : Option String) :
    List CareContext :=
  s.contexts.filter (keyMatches pid vid)

/-- The JSON body the frontend sends to `POST /api/care-context/create-and-link`
(health-records.js `createAndLinkCareContext` building
`{ patientId, contextName, description }` and api.js
`api.careContexts.createAndLink`): there is no visitId field. -/
def createAndLinkRequestBody (patientId department visitType : String)
    (year : Nat) : List (String × String) :=
  [("patientId", patientId),
   ("contextName", department ++ " Care - " ++ toString year),
   ("description", visitType ++ " visit care context")]

/-- A HealthRecord reference (spec §3), kept to the fields attachment needs. -/
structure HealthRecord where
  recordId : String
  patientId : String
  contextId : Nat
  recordType : String
deriving DecidableEq, Repr

/-- Modelled from the spec: attaching a HealthRecord requires only that the
referenced CareContext exists locally — §4.1: a failed context "remains usable
for attaching HealthRecords"; `linkingStatus` is not consulted. -/
def attachHealthRecord (s : EngineState) (records : List HealthRecord)
    (r : HealthRecord) : Except String (List HealthRecord) :=
  if s.contexts.any (fun c => c.contextId == r.contextId) then
    Except.ok (records ++ [r])
  else Except.error "care context not found"

/-! ## Data Request/Response Correlator (spec §4.3). The broker-side
correlator is code of this repository that is not under src/, so it is
modelled from the specification. -/

/-- DataRequest status (spec §3). -/
inductive ReqStatus
  | initiated
  | awaitingResponse
  | fulfilled
  | failed
  | timedOut
deriving DecidableEq, Repr

/-- A DataRequest row (spec §3), resolved by a later DataResponse matched on
`requestId`. -/
structure DataRequest where
  requestId : String
  hiuId : String
  consentId : String
  careContextIds : List String
  dataTypes : List String
  status : ReqStatus
  deliveredRecords : List String
deriving DecidableEq, Repr

/-- What happened to an inbound delivery. -/
inductive DeliveryOutcome
  | applied
  | discardedLogged
deriving DecidableEq, Repr

/-- Modelled from the spec: §4.3 on response arrival — look up the DataRequest
by `requestId`; if found and in awaiting-response, attach the delivered
records and transition to fulfilled; if not found, or found but already
resolved (fulfilled / failed / timed-out), the delivery is a duplicate or
stale and is discarded (logged); no error is raised to the delivering party
in any case, hence the `Except` is always `ok`. -/
def onDataResponse (reqs : List DataRequest) (rid : String)
    (recs : List String) :
    Except String (List DataRequest × DeliveryOutcome) :=
  match reqs.find? (fun q => q.requestId == rid) with
  | some q =>
      if q.status = ReqStatus.awaitingResponse then
        Except.ok
          (reqs.map (fun q' =>
            if q'.requestId == rid then
              { q' with
                  status := ReqStatus.fulfilled
                  deliveredRecords := q'.deliveredRecords ++ recs }
            else q'),
           DeliveryOutcome.applied)
      else Except.ok (reqs, DeliveryOutcome.discardedLogged)
  | none => Except.ok (reqs, DeliveryOutcome.discardedLogged)

/-! ## Theorems -/

/-- C6: Completed and Cancelled are terminal Visit statuses: the
record-creation visit picker offers only Scheduled / In Progress visits (so no
Completed or Cancelled visit is offered), and the add-health-record action is
disabled exactly for Completed/Cancelled visits. -/
theorem terminal_visits_cannot_attach
    (visits : List Visit) (v : Visit)
    (hv : v ∈ loadActiveVisitsFilter visits) :
    (v.status ≠ "Completed" ∧ v.status ≠ "Cancelled")
    ∧ ∀ w : Visit,
        addHealthRecordBtnDisabled w = true ↔
          (w.status = "Completed" ∨ w.status = "Cancelled") := by
  constructor
  · simp only [loadActiveVisitsFilter, List.mem_filter, Bool.or_eq_true,
      beq_iff_eq] at hv
    rcases hv.2 with h | h <;> rw [h] <;> exact ⟨by decide, by decide⟩
  · intro w
    simp [addHealthRecordBtnDisabled, isCompletedOrCancelled]

/-- Witness for C6 at a concrete Scheduled visit. -/
theorem terminal_visits_cannot_attach_witness :
    ((⟨"V1", "P1", "OPD", "Cardiology", "Scheduled"⟩ : Visit).status ≠ "Completed"
      ∧ (⟨"V1", "P1", "OPD", "Cardiology", "Scheduled"⟩ : Visit).status ≠ "Cancelled")
    ∧ ∀ w : Visit,
        addHealthRecordBtnDisabled w = true ↔
          (w.status = "Completed" ∨ w.status = "Cancelled") :=
  terminal_visits_cannot_attach
    [⟨"V1", "P1", "OPD", "Cardiology", "Scheduled"⟩]
    ⟨"V1", "P1", "OPD", "Cardiology", "Scheduled"⟩
    (by simp [loadActiveVisitsFilter])

/-- C7: Aadhaar is masked on display: for a non-empty aadhaar, both render
sites (patient list and patient-details modal) show exactly the first four
characters, then `****`, then the last four characters; and the rendering
depends only on those first and last four characters, so the middle digits are
never displayed. -/
theorem aadhaar_masked_on_display (s : List Char) (hs : s ≠ []) :
    (patientListAadhaarCell s = s.take 4 ++ maskStars ++ s.drop (s.length - 4)
      ∧ patientDetailsAadhaarCell s = patientListAadhaarCell s)
    ∧ ∀ t : List Char, t ≠ [] →
        s.take 4 = t.take 4 → s.drop (s.length - 4) = t.drop (t.length - 4) →
        patientListAadhaarCell s = patientListAadhaarCell t := by
  have hse : s.isEmpty = false := by
    simpa [List.isEmpty_iff] using hs
  refine ⟨⟨?_, ?_⟩, ?_⟩
  · simp [patientListAadhaarCell, hse, maskAadhaar, jsSlice, jsSliceNeg]
  · simp [patientListAadhaarCell, patientDetailsAadhaarCell, hse]
  · intro t ht h4 hlast
    have hte : t.isEmpty = false := by
      simpa [List.isEmpty_iff] using ht
    simp [patientListAadhaarCell, hse, hte, maskAadhaar, jsSlice, jsSliceNeg,
      h4, hlast]

/-- Witness for C7 at the concrete 12-digit aadhaar `123456789012`. -/
theorem aadhaar_masked_on_display_witness :
    ("123456789012".toList ≠ ([] : List Char))
    ∧ ((patientListAadhaarCell "123456789012".toList =
          "123456789012".toList.take 4 ++ maskStars ++
            "123456789012".toList.drop ("123456789012".toList.length - 4)
        ∧ patientDetailsAadhaarCell "123456789012".toList =
            patientListAadhaarCell "123456789012".toList)
      ∧ ∀ t : List Char, t ≠ [] →
          "123456789012".toList.take 4 = t.take 4 →
          "123456789012".toList.drop ("123456789012".toList.length - 4) =
            t.drop (t.length - 4) →
          patientListAadhaarCell "123456789012".toList =
            patientListAadhaarCell t) :=
  ⟨by decide, aadhaar_masked_on_display _ (by decide)⟩

/-- C5: Clear-queue is guarded: with the confirmation declined no HTTP request
is issued and the queue is unchanged; with the confirmation given exactly the
destructive `DELETE /webhook/queue` request is issued and the resulting queue
discards all entries unconditionally. -/
theorem clear_queue_guarded (q : List WebhookEvent) :
    clearWebhookQueue false q = ([], q)
    ∧ clearWebhookQueue true q = (["DELETE /webhook/queue"], []) := by
  constructor <;> rfl

theorem isHex_hexDigit_mod16 (n : Nat) : isHexChar (hexDigit (n % 16)) = true :=
  (by decide : ∀ m, m < 16 → isHexChar (hexDigit m) = true) _
    (Nat.mod_lt _ (by norm_num))

theorem variant_char_mem (n : Nat) :
    hexDigit (((n % 16) &&& 3) ||| 8) ∈ (['8', '9', 'a', 'b'] : List Char) :=
  (by decide : ∀ m, m < 16 →
      hexDigit ((m &&& 3) ||| 8) ∈ (['8', '9', 'a', 'b'] : List Char)) _
    (Nat.mod_lt _ (by norm_num))

theorem variant_char_isHex (n : Nat) :
    isHexChar (hexDigit (((n % 16) &&& 3) ||| 8)) = true :=
  (by decide : ∀ m, m < 16 →
      isHexChar (hexDigit ((m &&& 3) ||| 8)) = true) _
    (Nat.mod_lt _ (by norm_num))

/-- The generated identifier, written out: 31 draws are consumed in template
order, position 14 is the literal version nibble and position 19 the variant
nibble. -/
theorem generateUUID_eq (rand : Nat → Nat) (k : Nat) :
    generateUUID rand k =
      [hexDigit (rand k % 16), hexDigit (rand (k + 1) % 16),
       hexDigit (rand (k + 2) % 16), hexDigit (rand (k + 3) % 16),
       hexDigit (rand (k + 4) % 16), hexDigit (rand (k + 5) % 16),
       hexDigit (rand (k + 6) % 16), hexDigit (rand (k + 7) % 16), '-',
       hexDigit (rand (k + 8) % 16), hexDigit (rand (k + 9) % 16),
       hexDigit (rand (k + 10) % 16), hexDigit (rand (k + 11) % 16), '-',
       '4', hexDigit (rand (k + 12) % 16), hexDigit (rand (k + 13) % 16),
       hexDigit (rand (k + 14) % 16), '-',
       hexDigit (((rand (k + 15) % 16) &&& 3) ||| 8),
       hexDigit (rand (k + 16) % 16), hexDigit (rand (k + 17) % 16),
       hexDigit (rand (k + 18) % 16), '-',
       hexDigit (rand (k + 19) % 16), hexDigit (rand (k + 20) % 16),
       hexDigit (rand (k + 21) % 16), hexDigit (rand (k + 22) % 16),
       hexDigit (rand (k + 23) % 16), hexDigit (rand (k + 24) % 16),
       hexDigit (rand (k + 25) % 16), hexDigit (rand (k + 26) % 16),
       hexDigit (rand (k + 27) % 16), hexDigit (rand (k + 28) % 16),
       hexDigit (rand (k + 29) % 16), hexDigit (rand (k + 30) % 16)] := rfl

theorem replaceUUIDChars_congr (rand rand' : Nat → Nat) (t : List Char)
    (k k' : Nat) (h : ∀ i, rand (k + i) = rand' (k' + i)) :
    (replaceUUIDChars rand t k).1 = (replaceUUIDChars rand' t k').1 := by
  induction t generalizing k k' with
  | nil => rfl
  | cons c cs ih =>
    have hshift : ∀ i, rand (k + 1 + i) = rand' (k' + 1 + i) := by
      intro i
      have e : k + 1 + i = k + (i + 1) := by omega
      have e' : k' + 1 + i = k' + (i + 1) := by omega
      rw [e, e']
      exact h (i + 1)
    have h0 : rand k = rand' k' := by
      have := h 0
      simpa using this
    by_cases hx : c = 'x'
    · simp [replaceUUIDChars, hx, h0, ih _ _ hshift]
    · by_cases hy : c = 'y'
      · simp [replaceUUIDChars, hx, hy, h0, ih _ _ hshift]
      · simp [replaceUUIDChars, hx, hy, ih _ _ h]

/-- C8 (amended): the Correlation ID Generator is stateless — its output is
fully determined by the random draws it consumes — and every output is a
36-character 8-4-4-4-12 lowercase-hex string with version nibble '4' and
variant character in 8/9/a/b. Distinctness of two generated identifiers is
not part of this statement: it does not hold (see the counterexample). -/
theorem generateUUID_format_and_stateless (rand rand' : Nat → Nat) (k k' : Nat)
    (h : ∀ i, rand (k + i) = rand' (k' + i)) :
    isUUIDv4Format (generateUUID rand k)
    ∧ generateUUID rand k = generateUUID rand' k' := by
  constructor
  · refine ⟨?_, ?_, ?_, ?_, ?_, ?_, ?_, ?_⟩
    · rw [generateUUID_eq]; rfl
    · rw [generateUUID_eq]; rfl
    · rw [generateUUID_eq]; rfl
    · rw [generateUUID_eq]; rfl
    · rw [generateUUID_eq]; rfl
    · rw [generateUUID_eq]; rfl
    · exact ⟨hexDigit (((rand (k + 15) % 16) &&& 3) ||| 8),
        by rw [generateUUID_eq]; rfl, variant_char_mem _⟩
    · rw [generateUUID_eq]
      simp [isHex_hexDigit_mod16, variant_char_isHex,
        (by decide : isHexChar '4' = true)]
  · exact replaceUUIDChars_congr rand rand' uuidTemplate k k' h

/-- Witness for C8 (amended) at the constant-zero draw stream. -/
theorem generateUUID_format_and_stateless_witness :
    isUUIDv4Format (generateUUID (fun _ => 0) 0)
    ∧ generateUUID (fun _ => 0) 0 = generateUUID (fun _ => 0) 0 :=
  generateUUID_format_and_stateless (fun _ => 0) (fun _ => 0) 0 0 (fun _ => rfl)

/-- C8 counterexample: two successive generateUUID calls over the same
underlying `Math.random` draws yield the *same* identifier — with all draws
zero, both calls produce `00000000-0000-4000-8000-000000000000` — so any two
generated identifiers being distinct is false. -/
theorem generateUUID_not_globally_unique :
    (generateUUIDTwice (fun _ => 0)).1 = (generateUUIDTwice (fun _ => 0)).2
    ∧ (generateUUIDTwice (fun _ => 0)).1 =
        "00000000-0000-4000-8000-000000000000".toList := by
  constructor <;> decide

/-- C10: `notifyGateway` is not defined on `api.healthRecords`, so for every
health-record creation through this form the notification step throws, the
error is caught, the flow still reports success with the "gateway notification
pending" message, the created record is persisted, and the gateway is never
actually notified by this path. -/
theorem notifyGateway_undefined_flow (existing : List HealthRecordRow)
    (r : HealthRecordRow) :
    apiHealthRecordsMethods.contains "notifyGateway" = false
    ∧ (handleCreateHealthRecordFlow existing r).records = existing ++ [r]
    ∧ (handleCreateHealthRecordFlow existing r).gatewayNotifications = []
    ∧ (handleCreateHealthRecordFlow existing r).message =
        "✅ Health record created and linked to care context (gateway notification pending)"
    ∧ (handleCreateHealthRecordFlow existing r).reportedSuccess = true := by
  refine ⟨by decide, ?_, ?_, ?_, ?_⟩ <;>
    simp [handleCreateHealthRecordFlow, callHealthRecordsMethod,
      apiHealthRecordsMethods]

theorem applyBindResult_contextId (c : CareContext) (b : BrokerResult) :
    (applyBindResult c b).contextId = c.contextId := by
  unfold applyBindResult
  split
  · cases b <;> rfl
  · rfl

theorem applyBindResult_key (pid : String) (vid : Option String)
    (c : CareContext) (b : BrokerResult) :
    keyMatches pid vid (applyBindResult c b) = keyMatches pid vid c := by
  unfold applyBindResult
  split
  · cases b <;> rfl
  · rfl

theorem map_replace_id (pid : String) (vid : Option String)
    (r x : CareContext) (hx : keyMatches pid vid x = true)
    (l : List CareContext) (hl : ∀ a ∈ l, keyMatches pid vid a = false) :
    l.map (fun d => if d = x then r else d) = l := by
  induction l with
  | nil => rfl
  | cons a t ih =>
    have ha : a ≠ x := by
      intro e
      have hfa := hl a (List.mem_cons_self a t)
      rw [e, hx] at hfa
      cases hfa
    simp [ha, ih (fun y hy => hl y (List.mem_cons_of_mem a hy))]

theorem createAndLink_none_eval (s : EngineState) (pid : String)
    (vid : Option String) (nm : String) (b : BrokerResult)
    (hfind : s.contexts.find? (keyMatches pid vid) = none) :
    createAndLink s pid vid nm b =
      (EngineState.mk
        (s.contexts ++
          [applyBindResult
            (CareContext.mk s.nextId pid vid nm LinkStatus.pending none) b])
        (s.nextId + 1),
       applyBindResult
        (CareContext.mk s.nextId pid vid nm LinkStatus.pending none) b) := by
  unfold createAndLink
  rw [hfind]

theorem createAndLink_some_reuse (s : EngineState) (pid : String)
    (vid : Option String) (nm : String) (b : BrokerResult) (c : CareContext)
    (hfind : s.contexts.find? (keyMatches pid vid) = some c)
    (hc : c.linkingStatus ≠ LinkStatus.failed) :
    createAndLink s pid vid nm b = (s, c) := by
  unfold createAndLink
  rw [hfind]
  simp only [if_pos hc]

theorem createAndLink_some_retry (s : EngineState) (pid : String)
    (vid : Option String) (nm : String) (b : BrokerResult) (c : CareContext)
    (hfind : s.contexts.find? (keyMatches pid vid) = some c)
    (hc : c.linkingStatus = LinkStatus.failed) :
    createAndLink s pid vid nm b =
      (EngineState.mk
        (s.contexts.map (fun d =>
          if d = c then
            applyBindResult { c with linkingStatus := LinkStatus.pending } b
          else d))
        s.nextId,
       applyBindResult { c with linkingStatus := LinkStatus.pending } b) := by
  unfold createAndLink
  rw [hfind]
  simp only [if_neg (not_not_intro hc)]

/-- C1: create-and-link is idempotent per (patientId, visitId): the frontend
call chain sends only patientId/contextName/description — no visitId — so every
call through it carries the degenerate key `visitId = none`; and for every
(patientId, visitId) key, the engine — which first looks up by that key, reuses
a non-failed existing context and rebinds a failed one in place — invoked twice
in sequence from a state with no context for that key yields exactly one
CareContext row, the second response referencing the first call's contextId. -/
theorem createAndLink_idempotent_per_key
    (s : EngineState) (pid : String) (vid : Option String) (nm nm' : String)
    (b₁ b₂ : BrokerResult)
    (hno : ∀ c ∈ s.contexts, keyMatches pid vid c = false) :
    (∀ pd dept vt (yr : Nat),
        (createAndLinkRequestBody pd dept vt yr).map Prod.fst =
          ["patientId", "contextName", "description"])
    ∧ (contextsForKey
          (createAndLink (createAndLink s pid vid nm b₁).1 pid vid nm' b₂).1
          pid vid).length = 1
    ∧ (createAndLink (createAndLink s pid vid nm b₁).1 pid vid nm' b₂).2.contextId
        = (createAndLink s pid vid nm b₁).2.contextId := by
  have hfind : s.contexts.find? (keyMatches pid vid) = none :=
    List.find?_eq_none.mpr (fun x hx => by simp [hno x hx])
  have hfilter : s.contexts.filter (keyMatches pid vid) = [] :=
    List.filter_eq_nil_iff.mpr (fun a ha => by simp [hno a ha])
  refine ⟨fun pd dept vt yr => rfl, ?_⟩
  have h1 := createAndLink_none_eval s pid vid nm b₁ hfind
  set c₁ := applyBindResult
    (CareContext.mk s.nextId pid vid nm LinkStatus.pending none) b₁ with hc₁
  have hkey1 : keyMatches pid vid c₁ = true := by
    rw [hc₁, applyBindResult_key]
    simp [keyMatches]
  have hfind2 : (s.contexts ++ [c₁]).find? (keyMatches pid vid) = some c₁ := by
    rw [List.find?_append, hfind]
    simp [hkey1]
  rw [h1]
  by_cases hfail : c₁.linkingStatus = LinkStatus.failed
  · have h2 := createAndLink_some_retry
      (EngineState.mk (s.contexts ++ [c₁]) (s.nextId + 1)) pid vid nm' b₂ c₁
      hfind2 hfail
    rw [h2]
    have hkeyR : keyMatches pid vid
        (applyBindResult { c₁ with linkingStatus := LinkStatus.pending } b₂)
          = true := by
      rw [applyBindResult_key]
      exact hkey1
    constructor
    · simp only [contextsForKey, List.map_append,
        map_replace_id pid vid _ _ hkey1 s.contexts hno, List.map_cons,
        List.map_nil, if_pos rfl, List.filter_append, hfilter,
        List.nil_append]
      simp [hkeyR]
    · rw [applyBindResult_contextId]
  · have h2 := createAndLink_some_reuse
      (EngineState.mk (s.contexts ++ [c₁]) (s.nextId + 1)) pid vid nm' b₂ c₁
      hfind2 hfail
    rw [h2]
    refine ⟨?_, rfl⟩
    simp only [contextsForKey, List.filter_append, hfilter, List.nil_append]
    simp [hkey1]

/-- Witness for C1: from the empty node state, a failed first attempt followed
by a retried second call for the same key. -/
theorem createAndLink_idempotent_per_key_witness :
    (∀ pd dept vt (yr : Nat),
        (createAndLinkRequestBody pd dept vt yr).map Prod.fst =
          ["patientId", "contextName", "description"])
    ∧ (contextsForKey
          (createAndLink
            (createAndLink ⟨[], 0⟩ "P1" none "Cardiology Care - 2025"
              (BrokerResult.failure "gateway unreachable")).1
            "P1" none "Cardiology Care - 2025" BrokerResult.success).1
          "P1" none).length = 1
    ∧ (createAndLink
          (createAndLink ⟨[], 0⟩ "P1" none "Cardiology Care - 2025"
            (BrokerResult.failure "gateway unreachable")).1
          "P1" none "Cardiology Care - 2025" BrokerResult.success).2.contextId
        = (createAndLink ⟨[], 0⟩ "P1" none "Cardiology Care - 2025"
            (BrokerResult.failure "gateway unreachable")).2.contextId :=
  createAndLink_idempotent_per_key ⟨[], 0⟩ "P1" none
    "Cardiology Care - 2025" "Cardiology Care - 2025"
    (BrokerResult.failure "gateway unreachable") BrokerResult.success
    (fun c hc => by cases hc)

/-- C2: linkingStatus only ever transitions pending→linked or pending→failed:
a bind result moves a pending context only to linked or failed; it leaves a
linked context untouched (no linked→pending, no linked→failed) and leaves a
failed context untouched (so failed→linked happens only through an explicit
new create-and-link attempt, which is the only operation that re-binds); and
every create-and-link invocation keeps a linked context in place unchanged. -/
theorem linkingStatus_transition_safety
    (c : CareContext) (b : BrokerResult) (s : EngineState)
    (pid : String) (vid : Option String) (nm : String) :
    (c.linkingStatus = LinkStatus.pending →
        (applyBindResult c b).linkingStatus = LinkStatus.linked
        ∨ (applyBindResult c b).linkingStatus = LinkStatus.failed)
    ∧ (c.linkingStatus = LinkStatus.linked → applyBindResult c b = c)
    ∧ (c.linkingStatus = LinkStatus.failed → applyBindResult c b = c)
    ∧ (c ∈ s.contexts → c.linkingStatus = LinkStatus.linked →
        c ∈ (createAndLink s pid vid nm b).1.contexts) := by
  refine ⟨?_, ?_, ?_, ?_⟩
  · intro hp
    unfold applyBindResult
    rw [if_pos hp]
    cases b
    · exact Or.inl rfl
    · exact Or.inr rfl
  · intro hl
    unfold applyBindResult
    rw [if_neg (by rw [hl]; decide)]
  · intro hf
    unfold applyBindResult
    rw [if_neg (by rw [hf]; decide)]
  · intro hc hlinked
    cases hfind : s.contexts.find? (keyMatches pid vid) with
    | none =>
        rw [createAndLink_none_eval s pid vid nm b hfind]
        exact List.mem_append_left _ hc
    | some c' =>
        by_cases hcf : c'.linkingStatus = LinkStatus.failed
        · rw [createAndLink_some_retry s pid vid nm b c' hfind hcf]
          have hne : c ≠ c' := by
            intro e
            rw [e] at hlinked
            rw [hlinked] at hcf
            exact absurd hcf (by decide)
          exact List.mem_map.mpr ⟨c, hc, by simp [hne]⟩
        · rw [createAndLink_some_reuse s pid vid nm b c' hfind hcf]
          exact hc

/-- Witness for C2: a pending context transitions on bind, a linked and a
failed context are untouched by a bind result, and a linked context survives a
create-and-link call. -/
theorem linkingStatus_transition_safety_witness :
    ((applyBindResult
        (CareContext.mk 0 "P1" none "Ctx" LinkStatus.pending none)
        BrokerResult.success).linkingStatus = LinkStatus.linked
      ∨ (applyBindResult
          (CareContext.mk 0 "P1" none "Ctx" LinkStatus.pending none)
          BrokerResult.success).linkingStatus = LinkStatus.failed)
    ∧ applyBindResult
        (CareContext.mk 0 "P1" none "Ctx" LinkStatus.linked none)
        (BrokerResult.failure "late error")
      = CareContext.mk 0 "P1" none "Ctx" LinkStatus.linked none
    ∧ applyBindResult
        (CareContext.mk 0 "P1" none "Ctx" LinkStatus.failed (some "down"))
        BrokerResult.success
      = CareContext.mk 0 "P1" none "Ctx" LinkStatus.failed (some "down")
    ∧ CareContext.mk 0 "P1" none "Ctx" LinkStatus.linked none
        ∈ (createAndLink
            (EngineState.mk
              [CareContext.mk 0 "P1" none "Ctx" LinkStatus.linked none] 1)
            "P1" none "Ctx" BrokerResult.success).1.contexts :=
  ⟨(linkingStatus_transition_safety
      (CareContext.mk 0 "P1" none "Ctx" LinkStatus.pending none)
      BrokerResult.success ⟨[], 0⟩ "P1" none "Ctx").1 rfl,
   (linkingStatus_transition_safety
      (CareContext.mk 0 "P1" none "Ctx" LinkStatus.linked none)
      (BrokerResult.failure "late error") ⟨[], 0⟩ "P1" none "Ctx").2.1 rfl,
   (linkingStatus_transition_safety
      (CareContext.mk 0 "P1" none "Ctx" LinkStatus.failed (some "down"))
      BrokerResult.success ⟨[], 0⟩ "P1" none "Ctx").2.2.1 rfl,
   (linkingStatus_transition_safety
      (CareContext.mk 0 "P1" none "Ctx" LinkStatus.linked none)
      BrokerResult.success
      (EngineState.mk
        [CareContext.mk 0 "P1" none "Ctx" LinkStatus.linked none] 1)
      "P1" none "Ctx").2.2.2 (List.mem_cons_self _ _) rfl⟩

/-- C3: linking failure never blocks clinical workflow: when the broker call
fails, the local CareContext still exists (not rolled back) with
`linkingStatus = failed` and a non-empty `linkingError`, and a HealthRecord
referencing it can still be attached successfully afterwards. -/
theorem linking_failure_never_blocks
    (s : EngineState) (pid : String) (vid : Option String) (nm msg : String)
    (records : List HealthRecord) (r : HealthRecord)
    (hno : ∀ c ∈ s.contexts, keyMatches pid vid c = false)
    (hmsg : msg ≠ "")
    (hr : r.contextId = s.nextId) :
    (createAndLink s pid vid nm (BrokerResult.failure msg)).2
        ∈ (createAndLink s pid vid nm (BrokerResult.failure msg)).1.contexts
    ∧ (createAndLink s pid vid nm (BrokerResult.failure msg)).2.linkingStatus
        = LinkStatus.failed
    ∧ (∃ e, (createAndLink s pid vid nm (BrokerResult.failure msg)).2.linkingError
          = some e ∧ e ≠ "")
    ∧ attachHealthRecord
        (createAndLink s pid vid nm (BrokerResult.failure msg)).1 records r
      = Except.ok (records ++ [r]) := by
  have hfind : s.contexts.find? (keyMatches pid vid) = none :=
    List.find?_eq_none.mpr (fun x hx => by simp [hno x hx])
  have h1 := createAndLink_none_eval s pid vid nm (BrokerResult.failure msg) hfind
  have hb : applyBindResult
      (CareContext.mk s.nextId pid vid nm LinkStatus.pending none)
      (BrokerResult.failure msg)
      = CareContext.mk s.nextId pid vid nm LinkStatus.failed (some msg) := rfl
  rw [h1, hb]
  have hany : ((s.contexts ++
      [CareContext.mk s.nextId pid vid nm LinkStatus.failed (some msg)]).any
        (fun c => c.contextId == r.contextId)) = true := by
    simp [List.any_append, hr]
  refine ⟨List.mem_append_right _ (List.mem_cons_self _ _), rfl,
    ⟨msg, rfl, hmsg⟩, ?_⟩
  simp [attachHealthRecord, hany]

/-- Witness for C3: scenario B — patient P1, context "Cardiology Care - 2025",
broker unreachable, then a record attach. -/
theorem linking_failure_never_blocks_witness :
    (createAndLink ⟨[], 0⟩ "P1" none "Cardiology Care - 2025"
        (BrokerResult.failure "gateway unreachable")).2
      ∈ (createAndLink ⟨[], 0⟩ "P1" none "Cardiology Care - 2025"
          (BrokerResult.failure "gateway unreachable")).1.contexts
    ∧ (createAndLink ⟨[], 0⟩ "P1" none "Cardiology Care - 2025"
        (BrokerResult.failure "gateway unreachable")).2.linkingStatus
        = LinkStatus.failed
    ∧ (∃ e, (createAndLink ⟨[], 0⟩ "P1" none "Cardiology Care - 2025"
          (BrokerResult.failure "gateway unreachable")).2.linkingError
          = some e ∧ e ≠ "")
    ∧ attachHealthRecord
        (createAndLink ⟨[], 0⟩ "P1" none "Cardiology Care - 2025"
          (BrokerResult.failure "gateway unreachable")).1 []
        (HealthRecord.mk "R1" "P1" 0 "OPConsultation")
      = Except.ok [HealthRecord.mk "R1" "P1" 0 "OPConsultation"] :=
  linking_failure_never_blocks ⟨[], 0⟩ "P1" none "Cardiology Care - 2025"
    "gateway unreachable" [] (HealthRecord.mk "R1" "P1" 0 "OPConsultation")
    (fun c hc => by cases hc) (by decide) rfl

/-- C4: a DataResponse with an unknown requestId, or one whose DataRequest is
already fulfilled or otherwise resolved, mutates no DataRequest and raises no
error to the delivering party: the correlator returns `ok` with the request
list unchanged and the delivery discarded (logged only). -/
theorem stale_dataResponse_discarded
    (reqs : List DataRequest) (rid : String) (recs : List String)
    (h : ∀ q ∈ reqs, q.requestId = rid → q.status ≠ ReqStatus.awaitingResponse) :
    onDataResponse reqs rid recs
      = Except.ok (reqs, DeliveryOutcome.discardedLogged) := by
  unfold onDataResponse
  cases hfind : reqs.find? (fun q => q.requestId == rid) with
  | none => rfl
  | some q =>
      have hq : q.requestId = rid := by
        have hp := List.find?_some hfind
        simpa using hp
      have hns := h q (List.mem_of_find?_eq_some hfind) hq
      simp [hns]

/-- Witness for C4: a delivery for an already-fulfilled DataRequest is
discarded without error and without mutation. -/
theorem stale_dataResponse_discarded_witness :
    onDataResponse
      [DataRequest.mk "R1" "hiu-001" "consent-1" ["C1"] ["OPConsultation"]
        ReqStatus.fulfilled ["rec-1"]]
      "R1" ["rec-dup"]
      = Except.ok
          ([DataRequest.mk "R1" "hiu-001" "consent-1" ["C1"] ["OPConsultation"]
            ReqStatus.fulfilled ["rec-1"]],
           DeliveryOutcome.discardedLogged) :=
  stale_dataResponse_discarded
    [DataRequest.mk "R1" "hiu-001" "consent-1" ["C1"] ["OPConsultation"]
      ReqStatus.fulfilled ["rec-1"]]
    "R1" ["rec-dup"] (by decide)

end ABDM
